import Mathlib

/-!
Shallow embedding of `src/Fastgreedy.py` and
`src/leiden_semfiltro/Leiden_semfiltro.py` from the repository
`CMAC03_Auxilio_Estudantil`.

Both scripts score survey respondents on a vulnerability index, build a
similarity graph by thresholding a Gower matrix, and partition the graph
with a community-detection algorithm.  The definitions below translate the
pure data transformations of those scripts; the behaviour of the
third-party libraries the scripts lean on (pandas NaN handling, the `gower`
distance matrix, the python-igraph graph constructor and its
vertex-attribute length check) is made explicit and documented at each
definition.
-/

/-- Constant `SALARIO_MINIMO = 1518.0` (defined identically in both scripts). -/
def SALARIO_MINIMO : ℚ := 1518

/-- Constant `SIMILARIDADE_LIMIAR = 0.5` (defined identically in both scripts). -/
def SIMILARIDADE_LIMIAR : ℚ := 1/2

/-!
## String helpers

Python string methods and the third-party `unidecode`, modelled
structurally over the character list of a string so that concrete
instances reduce.
-/

/-- Python `str.strip`, restricted to the space character (the only edge
whitespace the spreadsheet values carry). -/
def aparar (s : String) : String :=
  ⟨((s.data.dropWhile (· == ' ')).reverse.dropWhile (· == ' ')).reverse⟩

/-- Python `str.lower`, restricted to ASCII letters (the accented
characters the scripts meet are already lower-case). -/
def minusculas (s : String) : String :=
  ⟨s.data.map Char.toLower⟩

/-- The third-party `unidecode` transliteration, restricted to the accented
Portuguese characters appearing in the spreadsheet headers and values. -/
def unidecodeChar (c : Char) : Char :=
  if c = 'á' ∨ c = 'à' ∨ c = 'â' ∨ c = 'ã' then 'a'
  else if c = 'é' ∨ c = 'ê' then 'e'
  else if c = 'í' then 'i'
  else if c = 'ó' ∨ c = 'ô' ∨ c = 'õ' then 'o'
  else if c = 'ú' then 'u'
  else if c = 'ç' then 'c'
  else c

/-- `unidecode` applied to a whole string. -/
def unidecode (s : String) : String :=
  ⟨s.data.map unidecodeChar⟩

/-- Whether `pat` is an initial segment of `l` (character lists). -/
def listaComeca : List Char → List Char → Bool
  | [], _ => true
  | _ :: _, [] => false
  | a :: as, b :: bs => a == b && listaComeca as bs

/-- The Python substring test `pat in s`. -/
def contemSub (s pat : String) : Bool :=
  (List.range (s.data.length + 1)).any fun i => listaComeca pat.data (s.data.drop i)

/-!
## Spreadsheet cells and sheets
-/

/-- A raw spreadsheet cell as pandas `read_excel` delivers it: missing
(`NaN`), text, or numeric. -/
inductive Celula where
  | na : Celula
  | str : String → Celula
  | num : ℚ → Celula
deriving DecidableEq

/-- pandas `isna` on a cell. -/
def celulaIsna : Celula → Bool
  | Celula.na => true
  | _ => false

/-- Python `str(...)` of a cell (`str(nan)` is the text `"nan"`), as used
by `astype(str)` and by the transport lookup in `pontos_savs`. -/
def strDeCelula : Celula → String
  | Celula.na => "nan"
  | Celula.str s => s
  | Celula.num q => toString q

/-- A parsed sheet as `read_excel` returns it: the header names and one
association list of cells per row, keyed by header name (pandas keeps every
row aligned with the header, which the association-list lookup mirrors). -/
structure Planilha where
  colunas : List String
  linhas : List (List (String × Celula))

/-- The cell of column `c` in a row (`NaN` when the column is absent,
matching how a reindexed pandas frame fills absent columns). -/
def celulaDe (linha : List (String × Celula)) (c : String) : Celula :=
  ((linha.filter fun kv => kv.1 == c).map Prod.snd).headD Celula.na

/-!
## Gower dissimilarity and the similarity graph

Both scripts call `gower.gower_matrix(df.values)` and threshold the
resulting matrix.  The third-party `gower` library computes the *Gower
distance*: the mean over features of a per-feature dissimilarity that is
`0/1`-equality for categorical features and `|xi − xj| / (max − min)` for
numeric ones (`0` when the column range is `0`), feature kinds being
detected per column.  On the nonnegative numeric columns the scripts feed
in, this agrees exactly with the normalisation the library performs.
-/

/-- One typed field of a row handed to `gower_matrix`. -/
inductive Campo where
  | cat : String → Campo
  | num : ℚ → Campo
deriving DecidableEq

/-- The numeric content of a field (`0` for a categorical field; the Gower
range of a categorical column is never consulted, so this convention is
harmless on the per-column-typed data the scripts produce). -/
def campoNum : Campo → ℚ
  | Campo.num q => q
  | _ => 0

/-- The numeric entries of column `c` across the dataset. -/
def colunaNums (rows : List (List Campo)) (c : ℕ) : List ℚ :=
  rows.map fun r => campoNum (r.getD c (Campo.cat ""))

/-- The range `max − min` of numeric column `c` (`0` for an empty
dataset), used by the per-column normalisation of the Gower distance. -/
def colunaRange (rows : List (List Campo)) (c : ℕ) : ℚ :=
  let l := colunaNums rows c
  l.foldl max (l.headD 0) - l.foldl min (l.headD 0)

/-- Per-feature Gower dissimilarity, given the column range. -/
def campoDiss (range : ℚ) : Campo → Campo → ℚ
  | Campo.cat a, Campo.cat b => if a = b then 0 else 1
  | Campo.num a, Campo.num b => if range = 0 then 0 else |a - b| / range
  | _, _ => 1

/-- Gower distance between two rows of the dataset: the feature
dissimilarities averaged over the number of columns (the default unit
feature weights of the library sum to the column count). -/
def gowerDist (rows : List (List Campo)) (ri rj : List Campo) : ℚ :=
  ((List.range ri.length).map fun c =>
    campoDiss (colunaRange rows c) (ri.getD c (Campo.cat "")) (rj.getD c (Campo.cat ""))).sum
  / (ri.length : ℚ)

/-- The entry `matriz_sim[i][j]` of `gower.gower_matrix(df.values)`. -/
def simPar (rows : List (List Campo)) (p : ℕ × ℕ) : ℚ :=
  gowerDist rows (rows.getD p.1 []) (rows.getD p.2 [])

/-- The index pairs visited by the nested loops
`for i in range(n): for j in range(i + 1, n):` of `construir_grafo`. -/
def paresOrdenados (n : ℕ) : List (ℕ × ℕ) :=
  (List.range n).flatMap fun i =>
    ((List.range n).filter fun j => i < j).map fun j => (i, j)

/-- The edge/weight list accumulated by `construir_grafo` (the loops are
identical in both scripts): the pair `(i, j)` together with the matrix
entry `matriz_sim[i][j]`, kept whenever that entry is `≥ limiar`.  The
scripts compare the Gower *distance* itself against the threshold — no
`1 − d` conversion appears anywhere in the code. -/
def arestas (rows : List (List Campo)) (limiar : ℚ) : List ((ℕ × ℕ) × ℚ) :=
  (paresOrdenados rows.length).filterMap fun p =>
    if limiar ≤ simPar rows p then some (p, simPar rows p) else none

/-- The edge/weight list the specification describes for `construir_grafo`:
an edge between `i` and `j` exactly when the similarity
`1 − gower_distance(i, j)` is at least the threshold, weighted by that
similarity.  Stated from the words of the spec, for comparison with
`arestas`. -/
def arestasSpec (rows : List (List Campo)) (limiar : ℚ) : List ((ℕ × ℕ) × ℚ) :=
  (paresOrdenados rows.length).filterMap fun p =>
    if limiar ≤ 1 - simPar rows p then some (p, 1 - simPar rows p) else none

/-- python-igraph `Graph(edges=edges, directed=False)` infers the vertex
count from the edge list: the largest endpoint plus one, and `0` when the
edge list is empty. -/
def vcountInferido (edges : List (ℕ × ℕ)) : ℕ :=
  edges.foldl (fun m e => max m (max e.1 e.2 + 1)) 0

/-- The graph value `construir_grafo` returns. -/
structure Grafo where
  vcount : ℕ
  edges : List (ℕ × ℕ)
  weights : List ℚ
  labels : List String
deriving DecidableEq

/-- `construir_grafo` (both scripts): build the thresholded edge list, let
igraph infer the vertex count from it, then assign
`g.vs['label'] = [str(i) for i in range(n)]`.  igraph rejects a vertex
attribute sequence whose length differs from the vertex count, so the
label assignment raises whenever the inferred vertex count is not the
number of dataset rows; the embedding surfaces that as an error. -/
def construirGrafo (rows : List (List Campo)) (limiar : ℚ) : Except String Grafo :=
  let ew := arestas rows limiar
  let edges := ew.map Prod.fst
  let vc := vcountInferido edges
  if vc = rows.length then
    Except.ok
      { vcount := vc
        edges := edges
        weights := ew.map Prod.snd
        labels := (List.range rows.length).map toString }
  else
    Except.error "igraph: comprimento de atributo diferente do numero de vertices"

/-- The weight the undirected graph of `construir_grafo` carries between
vertices `i` and `j`: the weight of the first stored edge joining the set
of endpoints `i`, `j` in either orientation (how igraph resolves an edge
of an undirected graph), `none` when no such edge exists. -/
def pesoAresta (rows : List (List Campo)) (limiar : ℚ) (i j : ℕ) : Option ℚ :=
  (arestas rows limiar).findSome? fun e =>
    if (e.1.1 = i ∧ e.1.2 = j) ∨ (e.1.1 = j ∧ e.1.2 = i) then some e.2 else none

/-!
## The Fast Greedy variant (`src/Fastgreedy.py`)
-/

namespace Fastgreedy

/-- `pontos_renda(r)`: vulnerability points for the per-capita income `r`
(`None` models a pandas `NaN`). -/
def pontos_renda : Option ℚ → ℤ
  | none => 0
  | some r =>
    if r < 0.5 * SALARIO_MINIMO then 40
    else if r < 1.0 * SALARIO_MINIMO then 30
    else if r ≤ 1.5 * SALARIO_MINIMO then 20
    else 0

/-- `pontos_moradia(m)`: points for the housing description; a value that
is not a string (`none`) scores `0`. -/
def pontos_moradia : Option String → ℤ
  | none => 0
  | some m =>
    let ml := minusculas (aparar m)
    if contemSub ml "alugada" then 15
    else if contemSub ml "pagamento" then 12
    else if contemSub ml "quitada" then 5
    else if contemSub ml "herança" || contemSub ml "heranca" then 2
    else 0

/-- `pontos_despesas(dp, rp)`: points for the expenses/income relation.
A missing value on either side, or a zero income, scores the maximum 10. -/
def pontos_despesas : Option ℚ → Option ℚ → ℤ
  | none, _ => 10
  | some _, none => 10
  | some dp, some rp =>
    if rp = 0 then 10
    else
      if 2.0 < dp / rp then 10
      else if 1.5 < dp / rp then 7
      else if 1.0 < dp / rp then 4
      else 0

/-- `pontos_bens(v)`: points for the total family assets. -/
def pontos_bens : Option ℚ → ℤ
  | none => 0
  | some v =>
    if v = 0 then 15
    else if v < 10000 then 10
    else if v < 100000 then 5
    else 0

/-- One respondent row as `calcular_indice_vulnerabilidade` reads it:
the two text fields may be non-strings (`none`), the numeric fields may be
`NaN` (`none`). -/
structure Respondente where
  moradia : Option String
  transporte : Option String
  renda : Option ℚ
  despesas : Option ℚ
  bens : Option ℚ

/-- `calcular_indice_vulnerabilidade`, per row: the sum of the four
category scores, stored in the column `Indice Vulnerabilidade`. -/
def calcularIndice (r : Respondente) : ℤ :=
  pontos_renda r.renda + pontos_moradia r.moradia +
    pontos_despesas r.despesas r.renda + pontos_bens r.bens

/-- The fixed list `colunas` of required columns of `carregar_dados`. -/
def colunas : List String :=
  ["Qual a situação da MORADIA DO GRUPO FAMILIAR?",
   "Qual o principal meio de transporte que você utiliza para vir até a Universidade?",
   "Renda per capita",
   "Despesas per capita",
   "Valor Total dos bens familiares"]

/-- The list `colunas_criticas` of `carregar_dados`. -/
def colunasCriticas : List String :=
  ["Renda per capita", "Despesas per capita", "Valor Total dos bens familiares"]

/-- Whether a row has a missing value in some critical column. -/
def linhaCriticaNA (linha : List (String × Celula)) : Bool :=
  colunasCriticas.any fun c => celulaIsna (celulaDe linha c)

/-- One loaded row: the two text columns after `astype(str).str.strip()`
(so always strings), the three critical columns as raw cells. -/
structure Linha where
  moradia : String
  transporte : String
  renda : Celula
  despesas : Celula
  bens : Celula
deriving DecidableEq

/-- The projection `df[colunas]` of one row followed by the string
normalisation of the two text columns. -/
def paraLinha (linha : List (String × Celula)) : Linha :=
  { moradia := aparar (strDeCelula (celulaDe linha "Qual a situação da MORADIA DO GRUPO FAMILIAR?"))
    transporte := aparar (strDeCelula (celulaDe linha
      "Qual o principal meio de transporte que você utiliza para vir até a Universidade?"))
    renda := celulaDe linha "Renda per capita"
    despesas := celulaDe linha "Despesas per capita"
    bens := celulaDe linha "Valor Total dos bens familiares" }

/-- `carregar_dados` after the `read_excel` call (file-system errors are
outside the embedding): raise `KeyError` when some required column is
absent (the source iterates over `colunas` and raises at the first missing
one), then strip the text columns, then raise `ValueError` when any row
has a missing value in a critical column (the source collects the sorted
offending row indices for the message; only nonemptiness of that set
decides the raise). -/
def carregar_dados (p : Planilha) : Except String (List Linha) :=
  if colunas.all (fun c => p.colunas.contains c) then
    if p.linhas.any linhaCriticaNA then
      Except.error "Existem valores ausentes nas colunas críticas"
    else
      Except.ok (p.linhas.map paraLinha)
  else
    Except.error "Coluna esperada não encontrada"

end Fastgreedy

/-!
## The Leiden variant (`src/leiden_semfiltro/Leiden_semfiltro.py`)
-/

namespace Leiden

/-- `pontos_renda(r)` of the Leiden script: the income bands use `≤`
throughout (the Fast Greedy variant uses `<` on the first two). -/
def pontos_renda : Option ℚ → ℤ
  | none => 0
  | some r =>
    if r ≤ 0.5 * SALARIO_MINIMO then 40
    else if r ≤ 1.0 * SALARIO_MINIMO then 30
    else if r ≤ 1.5 * SALARIO_MINIMO then 20
    else 0

/-- The membership test
`unidecode(x.strip().lower()) in ("aluguel", "financiado", "financiamento")`
guarded by `isinstance(x, str)`. -/
def ehAluguelFin : Celula → Bool
  | Celula.str s =>
    [("aluguel" : String), "financiado", "financiamento"].contains
      (unidecode (minusculas (aparar s)))
  | _ => false

/-- `pontos_moradia(moradia_aluno, moradia_familia)`: 8 points for the
student housing, 7 for the family housing, capped at 15. -/
def pontos_moradia (ma mf : Celula) : ℤ :=
  min ((if ehAluguelFin ma then 8 else 0) + (if ehAluguelFin mf then 7 else 0)) 15

/-- `pontos_procedencia(escola)`: points for the school origin. -/
def pontos_procedencia : Celula → ℤ
  | Celula.str s =>
    let e := unidecode (minusculas (aparar s))
    if contemSub e "publica" then 10
    else if contemSub e "bolsa" || contemSub e "filantropica" then 5
    else 0
  | _ => 0

/-- `pontos_bens(v)` of the Leiden script (bands 20000/50000). -/
def pontos_bens : Option ℚ → ℤ
  | none => 0
  | some v =>
    if v = 0 then 15
    else if v ≤ 20000 then 10
    else if v ≤ 50000 then 5
    else 0

/-- One loaded row of the Leiden script: after `carregar_dados` the five
numeric columns are plain numbers (`to_numeric(...).fillna(0)`), the text
columns stay raw cells. -/
structure Linha where
  id_discente : Celula
  procedencia : Celula
  moradiaAluno : Celula
  moradiaFamilia : Celula
  filhos : ℚ
  renda : ℚ
  bens : ℚ
  doenca : ℚ
  superior : ℚ
  transporte : Celula
deriving DecidableEq

/-- `pontos_savs(row)`: 5 points each for serious illness in the family,
for having children, for rural/intercity transport, and for no family
member with higher education; capped at 20. -/
def pontos_savs (r : Linha) : ℤ :=
  let transporte := unidecode (minusculas (strDeCelula r.transporte))
  min ((if 0 < r.doenca then 5 else 0) + (if 0 < r.filhos then 5 else 0) +
       (if contemSub transporte "zona rural" || contemSub transporte "cidade vizinha" ||
           contemSub transporte "intermunicipal" then 5 else 0) +
       (if r.superior = 0 then 5 else 0)) 20

/-- The raw sum of the five category scores of one respondent (the
argument of the final `clip`). -/
def somaBruta (r : Linha) : ℤ :=
  pontos_renda (some r.renda) + pontos_moradia r.moradiaAluno r.moradiaFamilia +
    pontos_procedencia r.procedencia + pontos_bens (some r.bens) + pontos_savs r

/-- `calcular_indice_vulnerabilidade` of the Leiden script, per row:
`df.apply(pontuar, axis=1).clip(upper=100)`. -/
def calcularIndice (r : Linha) : ℤ :=
  min (somaBruta r) 100

/-- Header normalisation `unidecode(col.strip().lower())`. -/
def normalizaCol (c : String) : String :=
  unidecode (minusculas (aparar c))

/-- The list `colunas_obrigatorias` (already in normalised form). -/
def colunasObrigatorias : List String :=
  ["id_discente",
   "qual sua procedencia escolar?",
   "qual a situacao da moradia do aluno?",
   "qual a situacao da moradia do grupo familiar?",
   "quantos filhos o solicitante possui?",
   "renda per capita",
   "valor total dos bens familiares",
   "quantidade de individuos com doenca grave no grupo familiar",
   "familiares com superior completo ou pos",
   "qual o principal meio de transporte que voce utiliza para vir ate a universidade?"]

/-- The cell of the column whose normalised header is `c` (`NaN` when
absent). -/
def celulaNorm (linha : List (String × Celula)) (c : String) : Celula :=
  ((linha.filter fun kv => normalizaCol kv.1 == c).map Prod.snd).headD Celula.na

/-- `pd.to_numeric(..., errors="coerce").fillna(0)` on a cell: a numeric
cell keeps its value; a missing cell coerces to `0`.  A text cell also
coerces to `0` (`to_numeric` would parse text that spells a number, a case
the numeric columns of this sheet do not exercise). -/
def paraNumero : Celula → ℚ
  | Celula.num q => q
  | _ => 0

/-- The numeric coercion step of `carregar_dados` applied to one row. -/
def paraLinha (l : List (String × Celula)) : Linha :=
  { id_discente := celulaNorm l "id_discente"
    procedencia := celulaNorm l "qual sua procedencia escolar?"
    moradiaAluno := celulaNorm l "qual a situacao da moradia do aluno?"
    moradiaFamilia := celulaNorm l "qual a situacao da moradia do grupo familiar?"
    filhos := paraNumero (celulaNorm l "quantos filhos o solicitante possui?")
    renda := paraNumero (celulaNorm l "renda per capita")
    bens := paraNumero (celulaNorm l "valor total dos bens familiares")
    doenca := paraNumero (celulaNorm l
      "quantidade de individuos com doenca grave no grupo familiar")
    superior := paraNumero (celulaNorm l "familiares com superior completo ou pos")
    transporte := celulaNorm l
      "qual o principal meio de transporte que voce utiliza para vir ate a universidade?" }

/-- `carregar_dados` of the Leiden script after the `read_excel` call:
normalise the headers, raise `KeyError` when a required column is absent
(the source iterates over the required list and raises at the first
missing one), coerce the five numeric columns with
`to_numeric(...).fillna(0)` — missing values become `0`, no row is
rejected — and keep only the rows with (coerced) income at most
`1.5 * SALARIO_MINIMO`. -/
def carregar_dados (p : Planilha) : Except String (List Linha) :=
  let cols := p.colunas.map normalizaCol
  if colunasObrigatorias.all (fun c => cols.contains c) then
    Except.ok ((p.linhas.map paraLinha).filter fun l => l.renda ≤ 1.5 * SALARIO_MINIMO)
  else
    Except.error "Coluna esperada não encontrada"

end Leiden

/-!
## Helper lemmas
-/

/-- Taking the first components of a guarded `filterMap` is a `filter`. -/
theorem mapFst_filterMap_guarda {α β : Type} (l : List α) (g : α → β) (q : α → Prop)
    [DecidablePred q] :
    (l.filterMap fun a => if q a then some (a, g a) else none).map Prod.fst =
      l.filter fun a => decide (q a) := by
  induction l with
  | nil => rfl
  | cons a t ih => by_cases h : q a <;> simp [h, ih, List.filter_cons]

/-- Membership in `paresOrdenados`. -/
theorem mem_paresOrdenados {n : ℕ} {p : ℕ × ℕ} (h : p ∈ paresOrdenados n) :
    p.1 < p.2 ∧ p.2 < n := by
  simp only [paresOrdenados, List.mem_flatMap, List.mem_map, List.mem_filter,
    List.mem_range, decide_eq_true_eq] at h
  obtain ⟨i, hi, j, ⟨hj, hij⟩, rfl⟩ := h
  exact ⟨hij, hj⟩

/-- The visited index pairs are pairwise distinct. -/
theorem nodup_paresOrdenados (n : ℕ) : (paresOrdenados n).Nodup := by
  rw [paresOrdenados, List.nodup_flatMap]
  constructor
  · intro i _
    exact ((List.nodup_range n).filter _).map fun a b h => by injection h
  · refine List.Pairwise.imp ?_ (List.pairwise_lt_range n)
    intro i i' hlt x hx hx'
    simp only [List.mem_map, List.mem_filter] at hx hx'
    obtain ⟨j, _, rfl⟩ := hx
    obtain ⟨j', _, h⟩ := hx'
    exact absurd (congrArg Prod.fst h) (Nat.ne_of_gt hlt)

/-- Every edge `construir_grafo` stores is strictly ascending. -/
theorem mem_arestas_lt {rows : List (List Campo)} {limiar : ℚ} {e : (ℕ × ℕ) × ℚ}
    (h : e ∈ arestas rows limiar) : e.1.1 < e.1.2 := by
  simp only [arestas, List.mem_filterMap] at h
  obtain ⟨p, hp, hq⟩ := h
  split at hq
  · cases hq
    exact (mem_paresOrdenados hp).1
  · cases hq

/-- `findSome?` only depends on the values of the function. -/
theorem findSome_ext {α β : Type} {f g : α → Option β} (l : List α)
    (h : ∀ a, f a = g a) : l.findSome? f = l.findSome? g := by
  induction l with
  | nil => rfl
  | cons a t ih => rw [List.findSome?_cons, List.findSome?_cons, h a, ih]

/-- `findSome?` of a function that is `none` on every member. -/
theorem findSome_none {α β : Type} {f : α → Option β} {l : List α}
    (h : ∀ a ∈ l, f a = none) : l.findSome? f = none := by
  induction l with
  | nil => rfl
  | cons a t ih =>
    rw [List.findSome?_cons, h a (List.mem_cons_self a t)]
    exact ih fun b hb => h b (List.mem_cons_of_mem a hb)

/-- Claim C8: the graph built by `construir_grafo` is undirected and
symmetric — the weight between `i` and `j` equals the weight between `j`
and `i` — has no self-loops, and stores no pair of respondents twice. -/
theorem claim_C8_grafo_simetrico_sem_lacos (rows : List (List Campo)) (limiar : ℚ) :
    (∀ i j, pesoAresta rows limiar i j = pesoAresta rows limiar j i) ∧
    (∀ i, pesoAresta rows limiar i i = none) ∧
    ((arestas rows limiar).map Prod.fst).Nodup ∧
    ((arestas rows limiar).all fun e => e.1.1 < e.1.2) = true := by
  refine ⟨?_, ?_, ?_, ?_⟩
  · intro i j
    exact findSome_ext _ fun e => if_congr or_comm rfl rfl
  · intro i
    refine findSome_none fun e he => ?_
    have hlt := mem_arestas_lt he
    rw [if_neg]
    rintro (⟨h1, h2⟩ | ⟨h1, h2⟩) <;> omega
  · rw [arestas, mapFst_filterMap_guarda]
    exact (nodup_paresOrdenados rows.length).filter _
  · rw [List.all_eq_true]
    intro e he
    exact decide_eq_true (mem_arestas_lt he)

/-!
## Concrete datasets

Small tables with the five-column layout of the Fast Greedy sheet (two
categorical columns, three numeric columns), used to evaluate the graph
builder.
-/

/-- Two respondents that differ in every feature (Gower distance `1`,
similarity `0`). -/
def parMaxDiferente : List (List Campo) :=
  [[Campo.cat "alugada", Campo.cat "ônibus", Campo.num 0, Campo.num 0, Campo.num 0],
   [Campo.cat "própria quitada", Campo.cat "carro", Campo.num 100, Campo.num 100, Campo.num 100]]

/-- Two identical respondents (Gower distance `0`, similarity `1`). -/
def parIdentico : List (List Campo) :=
  [[Campo.cat "alugada", Campo.cat "ônibus", Campo.num 1, Campo.num 1, Campo.num 1],
   [Campo.cat "alugada", Campo.cat "ônibus", Campo.num 1, Campo.num 1, Campo.num 1]]

/-- Three respondents of which the pair `(0, 1)` has Gower distance `3/5`
while respondent `2` stays below the threshold with both others
(distances `3/10`). -/
def tresLinhas : List (List Campo) :=
  [[Campo.cat "alugada", Campo.cat "alugada", Campo.num 0, Campo.num 0, Campo.num 0],
   [Campo.cat "quitada", Campo.cat "quitada", Campo.num 100, Campo.num 0, Campo.num 0],
   [Campo.cat "alugada", Campo.cat "quitada", Campo.num 50, Campo.num 0, Campo.num 0]]

/-- A table with a single respondent (no pairs at all). -/
def umaLinha : List (List Campo) :=
  [[Campo.cat "alugada", Campo.cat "ônibus", Campo.num 10, Campo.num 20, Campo.num 30]]

theorem lenMaxDif : parMaxDiferente.length = 2 := by simp [parMaxDiferente]

theorem lenIdent : parIdentico.length = 2 := by simp [parIdentico]

theorem lenTres : tresLinhas.length = 3 := by simp [tresLinhas]

theorem lenUma : umaLinha.length = 1 := by simp [umaLinha]

theorem pares1 : paresOrdenados 1 = [] := by simp [paresOrdenados, List.range_succ]

theorem pares2 : paresOrdenados 2 = [(0, 1)] := by simp [paresOrdenados, List.range_succ]

theorem pares3 : paresOrdenados 3 = [(0, 1), (0, 2), (1, 2)] := by
  simp [paresOrdenados, List.range_succ]

theorem simParMaxDif : simPar parMaxDiferente (0, 1) = 1 := by
  simp [simPar, gowerDist, parMaxDiferente, colunaRange, colunaNums, campoNum,
    List.getD, max_def, min_def, campoDiss, List.range_succ]
  norm_num

theorem simParIdent : simPar parIdentico (0, 1) = 0 := by
  simp [simPar, gowerDist, parIdentico, colunaRange, colunaNums, campoNum,
    List.getD, max_def, min_def, campoDiss, List.range_succ]

theorem simParTres01 : simPar tresLinhas (0, 1) = 3/5 := by
  simp [simPar, gowerDist, tresLinhas, colunaRange, colunaNums, campoNum,
    List.getD, max_def, min_def, campoDiss, List.range_succ]
  norm_num

theorem simParTres02 : simPar tresLinhas (0, 2) = 3/10 := by
  simp [simPar, gowerDist, tresLinhas, colunaRange, colunaNums, campoNum,
    List.getD, max_def, min_def, campoDiss, List.range_succ]
  norm_num

theorem simParTres12 : simPar tresLinhas (1, 2) = 3/10 := by
  simp [simPar, gowerDist, tresLinhas, colunaRange, colunaNums, campoNum,
    List.getD, max_def, min_def, campoDiss, List.range_succ]
  norm_num

/-- Claim C1: `construir_grafo` thresholds the raw Gower *distance*, not
the similarity `1 − distance` the specification describes.  Two maximally
different respondents (distance `1`, similarity `0`) get an edge of weight
`1`, which the spec forbids; two identical respondents (similarity `1`)
get no edge, which the spec requires. -/
theorem claim_C1_limiar_sobre_distancia :
    simPar parMaxDiferente (0, 1) = 1 ∧
    arestas parMaxDiferente SIMILARIDADE_LIMIAR = [((0, 1), 1)] ∧
    arestasSpec parMaxDiferente SIMILARIDADE_LIMIAR = [] ∧
    simPar parIdentico (0, 1) = 0 ∧
    arestas parIdentico SIMILARIDADE_LIMIAR = [] ∧
    arestasSpec parIdentico SIMILARIDADE_LIMIAR = [((0, 1), 1)] := by
  refine ⟨simParMaxDif, ?_, ?_, simParIdent, ?_, ?_⟩
  · rw [arestas, lenMaxDif, pares2]
    simp only [List.filterMap_cons, List.filterMap_nil, simParMaxDif]
    norm_num [SIMILARIDADE_LIMIAR]
  · rw [arestasSpec, lenMaxDif, pares2]
    simp only [List.filterMap_cons, List.filterMap_nil, simParMaxDif]
    norm_num [SIMILARIDADE_LIMIAR]
  · rw [arestas, lenIdent, pares2]
    simp only [List.filterMap_cons, List.filterMap_nil, simParIdent]
    norm_num [SIMILARIDADE_LIMIAR]
  · rw [arestasSpec, lenIdent, pares2]
    simp only [List.filterMap_cons, List.filterMap_nil, simParIdent]
    norm_num [SIMILARIDADE_LIMIAR]

/-- Claim C2: the graph handed to the community detector does not always
have one vertex per respondent row.  On a three-respondent table whose
only qualifying pair is `(0, 1)`, igraph infers two vertices, respondent
`2` has no vertex, and the label assignment of length three raises, so no
membership covering all respondents is ever produced. -/
theorem claim_C2_vertice_ausente :
    tresLinhas.length = 3 ∧
    (arestas tresLinhas SIMILARIDADE_LIMIAR).map Prod.fst = [(0, 1)] ∧
    vcountInferido ((arestas tresLinhas SIMILARIDADE_LIMIAR).map Prod.fst) = 2 ∧
    (construirGrafo tresLinhas SIMILARIDADE_LIMIAR).isOk = false := by
  have harestas : arestas tresLinhas SIMILARIDADE_LIMIAR = [((0, 1), 3/5)] := by
    rw [arestas, lenTres, pares3]
    simp only [List.filterMap_cons, List.filterMap_nil, simParTres01, simParTres02,
      simParTres12]
    norm_num [SIMILARIDADE_LIMIAR]
  refine ⟨lenTres, ?_, ?_, ?_⟩
  · rw [harestas]; rfl
  · rw [harestas]; rfl
  · rw [construirGrafo, harestas, lenTres]
    rfl

/-- Claim C5: a table on which no pair meets the threshold does not run
through: with zero edges igraph infers a graph of zero vertices, and the
label assignment for the `n ≥ 1` respondents raises inside
`construir_grafo` instead of yielding one community per respondent. -/
theorem claim_C5_grafo_vazio_erra :
    arestas umaLinha SIMILARIDADE_LIMIAR = [] ∧
    umaLinha.length = 1 ∧
    (construirGrafo umaLinha SIMILARIDADE_LIMIAR).isOk = false := by
  have harestas : arestas umaLinha SIMILARIDADE_LIMIAR = [] := by
    rw [arestas, lenUma, pares1]
    rfl
  refine ⟨harestas, lenUma, ?_⟩
  rw [construirGrafo, harestas, lenUma]
  rfl

/-!
## Bounds of the scoring functions
-/

theorem fg_renda_limites (r : Option ℚ) :
    0 ≤ Fastgreedy.pontos_renda r ∧ Fastgreedy.pontos_renda r ≤ 40 := by
  cases r with
  | none => norm_num [Fastgreedy.pontos_renda]
  | some q =>
    simp only [Fastgreedy.pontos_renda]
    split_ifs <;> norm_num

theorem fg_moradia_limites (m : Option String) :
    0 ≤ Fastgreedy.pontos_moradia m ∧ Fastgreedy.pontos_moradia m ≤ 15 := by
  cases m with
  | none => norm_num [Fastgreedy.pontos_moradia]
  | some s =>
    simp only [Fastgreedy.pontos_moradia]
    split_ifs <;> norm_num

theorem fg_despesas_limites (dp rp : Option ℚ) :
    0 ≤ Fastgreedy.pontos_despesas dp rp ∧ Fastgreedy.pontos_despesas dp rp ≤ 10 := by
  cases dp with
  | none => norm_num [Fastgreedy.pontos_despesas]
  | some d =>
    cases rp with
    | none => norm_num [Fastgreedy.pontos_despesas]
    | some r =>
      simp only [Fastgreedy.pontos_despesas]
      split_ifs <;> norm_num

theorem fg_bens_limites (v : Option ℚ) :
    0 ≤ Fastgreedy.pontos_bens v ∧ Fastgreedy.pontos_bens v ≤ 15 := by
  cases v with
  | none => norm_num [Fastgreedy.pontos_bens]
  | some q =>
    simp only [Fastgreedy.pontos_bens]
    split_ifs <;> norm_num

theorem ld_renda_limites (r : Option ℚ) :
    0 ≤ Leiden.pontos_renda r ∧ Leiden.pontos_renda r ≤ 40 := by
  cases r with
  | none => norm_num [Leiden.pontos_renda]
  | some q =>
    simp only [Leiden.pontos_renda]
    split_ifs <;> norm_num

theorem ld_moradia_limites (ma mf : Celula) :
    0 ≤ Leiden.pontos_moradia ma mf ∧ Leiden.pontos_moradia ma mf ≤ 15 := by
  unfold Leiden.pontos_moradia
  exact ⟨le_min (by split_ifs <;> norm_num) (by norm_num), min_le_right _ _⟩

theorem ld_procedencia_limites (c : Celula) :
    0 ≤ Leiden.pontos_procedencia c ∧ Leiden.pontos_procedencia c ≤ 10 := by
  cases c with
  | str s =>
    simp only [Leiden.pontos_procedencia]
    split_ifs <;> norm_num
  | na => norm_num [Leiden.pontos_procedencia]
  | num q => norm_num [Leiden.pontos_procedencia]

theorem ld_bens_limites (v : Option ℚ) :
    0 ≤ Leiden.pontos_bens v ∧ Leiden.pontos_bens v ≤ 15 := by
  cases v with
  | none => norm_num [Leiden.pontos_bens]
  | some q =>
    simp only [Leiden.pontos_bens]
    split_ifs <;> norm_num

theorem ld_savs_limites (r : Leiden.Linha) :
    0 ≤ Leiden.pontos_savs r ∧ Leiden.pontos_savs r ≤ 20 := by
  unfold Leiden.pontos_savs
  exact ⟨le_min (by split_ifs <;> norm_num) (by norm_num), min_le_right _ _⟩

theorem ld_soma_limites (s : Leiden.Linha) :
    0 ≤ Leiden.somaBruta s ∧ Leiden.somaBruta s ≤ 100 := by
  have h1 := ld_renda_limites (some s.renda)
  have h2 := ld_moradia_limites s.moradiaAluno s.moradiaFamilia
  have h3 := ld_procedencia_limites s.procedencia
  have h4 := ld_bens_limites (some s.bens)
  have h5 := ld_savs_limites s
  unfold Leiden.somaBruta
  omega

/-!
## Claims on the scoring functions
-/

/-- Claim C3: the claim that every scoring function scores `0` on a
missing value fails on `pontos_despesas`, which scores the maximum `10`
when either argument is missing. -/
theorem claim_C3_contraexemplo_despesas :
    Fastgreedy.pontos_despesas none none = 10 ∧ Fastgreedy.pontos_despesas none none ≠ 0 :=
  ⟨rfl, by decide⟩

/-- Claim C3 as amended: `pontos_renda`, `pontos_moradia`, `pontos_bens`
(and the Leiden scoring functions) score `0` on a missing or non-string
value, while the Fast Greedy `pontos_despesas` scores `10` whenever either
argument is missing or the income is zero; all are total functions. -/
theorem claim_C3_emendada :
    ∀ dp rp : Option ℚ,
      Fastgreedy.pontos_renda none = 0 ∧ Fastgreedy.pontos_moradia none = 0 ∧
      Fastgreedy.pontos_bens none = 0 ∧
      Fastgreedy.pontos_despesas none rp = 10 ∧ Fastgreedy.pontos_despesas dp none = 10 ∧
      Fastgreedy.pontos_despesas dp (some 0) = 10 ∧
      Leiden.pontos_renda none = 0 ∧ Leiden.pontos_bens none = 0 ∧
      Leiden.pontos_moradia Celula.na Celula.na = 0 ∧
      Leiden.pontos_procedencia Celula.na = 0 := by
  intro dp rp
  refine ⟨rfl, rfl, rfl, ?_, ?_, ?_, rfl, rfl, ?_, rfl⟩
  · cases rp <;> rfl
  · cases dp <;> rfl
  · cases dp with
    | none => rfl
    | some d => simp [Fastgreedy.pontos_despesas]
  · norm_num [Leiden.pontos_moradia, Leiden.ehAluguelFin]

/-- Claim C6: a respondent with per-capita income `0`, housing
`"alugada"`, any expenses value (income `0` sends `pontos_despesas` into
its maximal branch, whatever the ratio), and zero assets scores
`40 + 15 + 10 + 15 = 80` under the Fast Greedy rules. -/
theorem claim_C6_exemplo_80 :
    ∀ (dp : Option ℚ) (t : Option String),
      Fastgreedy.pontos_renda (some 0) = 40 ∧
      Fastgreedy.pontos_moradia (some "alugada") = 15 ∧
      Fastgreedy.pontos_despesas dp (some 0) = 10 ∧
      Fastgreedy.pontos_bens (some 0) = 15 ∧
      Fastgreedy.calcularIndice
        { moradia := some "alugada", transporte := t, renda := some 0,
          despesas := dp, bens := some 0 } = 80 := by
  intro dp t
  have hr : Fastgreedy.pontos_renda (some 0) = 40 := by
    norm_num [Fastgreedy.pontos_renda, SALARIO_MINIMO]
  have hm : Fastgreedy.pontos_moradia (some "alugada") = 15 := by decide
  have hd : Fastgreedy.pontos_despesas dp (some 0) = 10 := by
    cases dp with
    | none => rfl
    | some d => simp [Fastgreedy.pontos_despesas]
  have hb : Fastgreedy.pontos_bens (some 0) = 15 := by
    norm_num [Fastgreedy.pontos_bens]
  refine ⟨hr, hm, hd, hb, ?_⟩
  simp only [Fastgreedy.calcularIndice, hr, hm, hd, hb]
  norm_num

/-- Claim C7: every Fast Greedy index is nonnegative, and every Leiden
index lies between `0` and the cap `100`. -/
theorem claim_C7_indice_nao_negativo_e_tampado :
    ∀ (r : Fastgreedy.Respondente) (s : Leiden.Linha),
      0 ≤ Fastgreedy.calcularIndice r ∧
      0 ≤ Leiden.calcularIndice s ∧ Leiden.calcularIndice s ≤ 100 := by
  intro r s
  have h1 := fg_renda_limites r.renda
  have h2 := fg_moradia_limites r.moradia
  have h3 := fg_despesas_limites r.despesas r.renda
  have h4 := fg_bens_limites r.bens
  have h5 := ld_soma_limites s
  refine ⟨?_, ?_, ?_⟩
  · unfold Fastgreedy.calcularIndice
    omega
  · unfold Leiden.calcularIndice
    exact le_min h5.1 (by norm_num)
  · unfold Leiden.calcularIndice
    exact min_le_right _ _

/-- Claim C9: the Fast Greedy index always lies between `0` and `80`,
the four category scores being bounded by `40`, `15`, `10` and `15`. -/
theorem claim_C9_indice_fastgreedy_0_a_80 :
    ∀ r : Fastgreedy.Respondente,
      0 ≤ Fastgreedy.calcularIndice r ∧ Fastgreedy.calcularIndice r ≤ 80 := by
  intro r
  have h1 := fg_renda_limites r.renda
  have h2 := fg_moradia_limites r.moradia
  have h3 := fg_despesas_limites r.despesas r.renda
  have h4 := fg_bens_limites r.bens
  unfold Fastgreedy.calcularIndice
  omega

/-- Claim C10: the raw Leiden category sum never exceeds `100`, so the
`clip(upper=100)` in `calcular_indice_vulnerabilidade` is the identity. -/
theorem claim_C10_clip_identidade :
    ∀ s : Leiden.Linha,
      Leiden.somaBruta s ≤ 100 ∧ Leiden.calcularIndice s = Leiden.somaBruta s := by
  intro s
  refine ⟨(ld_soma_limites s).2, ?_⟩
  unfold Leiden.calcularIndice
  exact min_eq_left (ld_soma_limites s).2

/-!
## Claim C4: loader validation
-/

/-- A row with all required Leiden columns present but a missing value in
the critical column `renda per capita` (and the other numeric columns). -/
def linhaNA : List (String × Celula) :=
  [("id_discente", Celula.num 1),
   ("qual sua procedencia escolar?", Celula.na),
   ("qual a situacao da moradia do aluno?", Celula.na),
   ("qual a situacao da moradia do grupo familiar?", Celula.na),
   ("quantos filhos o solicitante possui?", Celula.na),
   ("renda per capita", Celula.na),
   ("valor total dos bens familiares", Celula.na),
   ("quantidade de individuos com doenca grave no grupo familiar", Celula.na),
   ("familiares com superior completo ou pos", Celula.na),
   ("qual o principal meio de transporte que voce utiliza para vir ate a universidade?",
     Celula.na)]

/-- A sheet with all required Leiden columns whose single row is `linhaNA`. -/
def planilhaComNA : Planilha :=
  { colunas := Leiden.colunasObrigatorias
    linhas := [linhaNA] }

/-- The row the Leiden loader produces from `linhaNA`: every missing
numeric value silently coerced to `0`. -/
def linhaCoagida : Leiden.Linha :=
  { id_discente := Celula.num 1, procedencia := Celula.na, moradiaAluno := Celula.na,
    moradiaFamilia := Celula.na, filhos := 0, renda := 0, bens := 0, doenca := 0,
    superior := 0, transporte := Celula.na }

/-- Claim C4 fails on the Leiden loader: a sheet whose critical numeric
column `renda per capita` misses a value is not rejected — the loader
returns the row, with the missing income coerced to `0`. -/
theorem claim_C4_contraexemplo_leiden_coage :
    Leiden.carregar_dados planilhaComNA = Except.ok [linhaCoagida] := by
  have hmap : planilhaComNA.linhas.map Leiden.paraLinha = [linhaCoagida] := by decide
  simp only [Leiden.carregar_dados]
  rw [if_pos (by decide), hmap]
  simp only [List.filter_cons, List.filter_nil]
  norm_num [linhaCoagida, SALARIO_MINIMO]

/-- Claim C4 as amended: the Fast Greedy loader fails exactly when a
required column is absent or some row has a missing critical value; the
Leiden loader fails exactly when a required column is absent, missing
critical values being coerced to `0` instead of rejected. -/
theorem claim_C4_emendada :
    ∀ p q : Planilha,
      ((Fastgreedy.carregar_dados p).isOk =
        (Fastgreedy.colunas.all (fun c => p.colunas.contains c) &&
          !(p.linhas.any Fastgreedy.linhaCriticaNA))) ∧
      ((Leiden.carregar_dados q).isOk =
        Leiden.colunasObrigatorias.all
          (fun c => (q.colunas.map Leiden.normalizaCol).contains c)) := by
  intro p q
  constructor
  · rw [Fastgreedy.carregar_dados]
    split_ifs with h1 h2
    · rw [h1, h2]; rfl
    · rw [Bool.not_eq_true] at h2
      rw [h1, h2]; rfl
    · rw [Bool.not_eq_true] at h1
      rw [h1]; rfl
  · rw [Leiden.carregar_dados]
    split_ifs with h
    · rw [h]; rfl
    · rw [Bool.not_eq_true] at h
      rw [h]; rfl
